import Mathlib

/-!
Verification of the minion basic plugins (src/minion/plugins/basic.py).

The data model and each plugin evaluation are embedded shallowly: a plugin
body after the HTTP fetch becomes a Lean function from the fetched response
to the list of reported issues, with an unhandled Python exception modelled
as `Except.error` (or `none` where the exception text is irrelevant).
-/

namespace Minion

/-- One entry of the URLs field of an issue (keys URL and Extra in the source). -/
structure IssueUrl where
  URL : String
  Extra : String
deriving DecidableEq

/-- An issue dictionary as reported by report_issues. -/
structure Issue where
  Summary : String
  Severity : String
  URLs : List IssueUrl := []
deriving DecidableEq

/-- An HTTP response as seen by the plugins: final url, status code, headers. -/
structure Response where
  url : String
  status : Nat
  headers : List (String × String)
deriving DecidableEq

def lowerStr (s : String) : String := String.mk (s.data.map Char.toLower)

def upperStr (s : String) : String := String.mk (s.data.map Char.toUpper)

/-- Header lookup in a requests response: the CaseInsensitiveDict of the
requests library matches header names case-insensitively. -/
def hget (hs : List (String × String)) (k : String) : Option String :=
  (hs.find? (fun p => lowerStr p.1 == lowerStr k)).map Prod.snd

/-- Header lookup in a minion.curly response. Modelled from the spec:
minion.curly is not part of this repository; per the spec (sections 4.4, 6
and 9) its header mapping matches names case-sensitively. -/
def cget (hs : List (String × String)) (k : String) : Option String :=
  (hs.find? (fun p => p.1 == k)).map Prod.snd

/-- Python str.startswith. -/
def startswith (s p : String) : Bool := p.data.isPrefixOf s.data

/-- status in the 2xx range -/
def is2xx (r : Response) : Bool := decide (200 ≤ r.status ∧ r.status < 300)

/-- requests Response.raise_for_status: raises HTTPError exactly for
status codes in the 4xx and 5xx ranges. -/
def requestsRaiseForStatus (r : Response) : Except String Unit :=
  if 400 ≤ r.status ∧ r.status < 600 then .error "HTTPError" else .ok ()

/-! ## The CSP directive parser (_parse_csp) -/

/-- The whitespace class of the re pattern and of str.split for byte
strings: space, tab, newline, carriage return, vertical tab, form feed. -/
def isSpacePy (c : Char) : Bool :=
  c == ' ' || c == '\t' || c == '\n' || c == '\r' || c == '\x0b' || c == '\x0c'

/-- re.split with the compiled pattern of _parse_csp (a semicolon followed
by a greedy run of whitespace); empty pieces are kept, as re.split keeps
them. Implemented as one left-to-right pass: the Bool is true while inside
the whitespace part of a match, so whitespace directly after a semicolon is
consumed rather than accumulated. The last argument holds the current piece
reversed. -/
def reSplitSemi : Bool → List Char → List Char → List (List Char)
  | _, [], cur => [cur.reverse]
  | skipping, c :: rest, cur =>
      if skipping && isSpacePy c then reSplitSemi true rest cur
      else if c == ';' then cur.reverse :: reSplitSemi true rest []
      else reSplitSemi false rest (c :: cur)

/-- Python str.split() with no argument: split on runs of whitespace and
drop empty pieces. The accumulator holds the current token reversed. -/
def pySplit : List Char → List Char → List (List Char)
  | [], cur => if cur.isEmpty then [] else [cur.reverse]
  | c :: rest, cur =>
      if isSpacePy c then
        if cur.isEmpty then pySplit rest [] else cur.reverse :: pySplit rest []
      else pySplit rest (c :: cur)

def pySplitStr (s : List Char) : List (List Char) := pySplit s []

/-- options[a[0]] += a[1:] on a defaultdict(list) with dict insertion order:
if the key exists its token list is extended in place (the key keeps its
position), otherwise the key is added at the end, possibly with an empty
token list. -/
def appendEntry : List (String × List String) → String → List String → List (String × List String)
  | [], k, vs => [(k, vs)]
  | (k0, vs0) :: rest, k, vs =>
      if k0 == k then (k0, vs0 ++ vs) :: rest
      else (k0, vs0) :: appendEntry rest k vs

/-- The loop body of _parse_csp over the split rules: a = rule.split();
options[a[0]] += a[1:]. When a is empty, a[0] raises IndexError, modelled
as none. -/
def parseCspGo : List (List Char) → List (String × List String) → Option (List (String × List String))
  | [], acc => some acc
  | rule :: rest, acc =>
      match pySplitStr rule with
      | [] => none
      | name :: vals => parseCspGo rest (appendEntry acc (String.mk name) (vals.map String.mk))

/-- _parse_csp: split the header value on the semicolon pattern and fold
the rules into the directive mapping; none models an uncaught IndexError. -/
def parse_csp (csp : String) : Option (List (String × List String)) :=
  parseCspGo (reSplitSemi false csp.data []) []

/-! ## The plugins -/

/-- Issue reported by XFrameOptionsPlugin when the header is absent. -/
def xfoMissingIssue : Issue :=
  { Summary := "Site has no X-Frame-Options header set", Severity := "High" }

/-- Issue reported by XFrameOptionsPlugin for an unknown or invalid value. -/
def xfoInvalidIssue (v : String) : Issue :=
  { Summary := "Site has X-Frame-Options header but it has an unknown or invalid value: " ++ v,
    Severity := "High" }

/-- Issue reported by XFrameOptionsPlugin for a correct header. -/
def xfoValidIssue : Issue :=
  { Summary := "Site has a correct X-Frame-Options header", Severity := "Info" }

/-- XFrameOptionsPlugin.do_run after the GET, as a function of the response. -/
def xframeoptionsPlugin (r : Response) : Except String (List Issue) :=
  match requestsRaiseForStatus r with
  | .error e => .error e
  | .ok _ =>
  match hget r.headers "x-frame-options" with
  | some v =>
      if upperStr v != "DENY" && upperStr v != "SAMEORIGIN" then
        pure [xfoInvalidIssue v]
      else
        pure [xfoValidIssue]
  | none => pure [xfoMissingIssue]

/-- Issue reported by HSTSPlugin when the header is absent on https. -/
def hstsMissingIssue : Issue :=
  { Summary := "Site does not set Strict-Transport-Security header", Severity := "High" }

/-- Issue reported by HSTSPlugin when the header is present on https. -/
def hstsPresentIssue : Issue :=
  { Summary := "Site sets Strict-Transport-Security header", Severity := "Info" }

/-- HSTSPlugin.do_run after the GET, as a function of the response. -/
def hstsPlugin (r : Response) : Except String (List Issue) :=
  match requestsRaiseForStatus r with
  | .error e => .error e
  | .ok _ =>
  if startswith r.url "https://" then
    match hget r.headers "strict-transport-security" with
    | none => pure [hstsMissingIssue]
    | some _ => pure [hstsPresentIssue]
  else
    pure []

/-- Issue reported by XContentTypeOptionsPlugin when the header is absent. -/
def xctoMissingIssue : Issue :=
  { Summary := "Site does not set X-Content-Type-Options header", Severity := "High" }

/-- Issue reported by XContentTypeOptionsPlugin for the value nosniff. -/
def xctoValidIssue : Issue :=
  { Summary := "Site sets X-Content-Type-Options header", Severity := "Info" }

/-- Issue reported by XContentTypeOptionsPlugin for any other value. -/
def xctoInvalidIssue : Issue :=
  { Summary := "Site sets an invalid X-Content-Type-Options header", Severity := "High" }

/-- XContentTypeOptionsPlugin.do_run after the GET, as a function of the response. -/
def xcontenttypeoptionsPlugin (r : Response) : Except String (List Issue) :=
  match requestsRaiseForStatus r with
  | .error e => .error e
  | .ok _ =>
  match hget r.headers "X-Content-Type-Options" with
  | none => pure [xctoMissingIssue]
  | some v =>
      if v == "nosniff" then
        pure [xctoValidIssue]
      else
        pure [xctoInvalidIssue]

/-- Issue reported by XXSSProtectionPlugin when the header is absent. -/
def xxssMissingIssue : Issue :=
  { Summary := "Site does not set X-XSS-Protection header", Severity := "High" }

/-- Issue reported by XXSSProtectionPlugin for the value 1; mode=block. -/
def xxssValidIssue : Issue :=
  { Summary := "Site sets X-XSS-Protection header", Severity := "Info" }

/-- Issue reported by XXSSProtectionPlugin for the value 0. -/
def xxssDisabledIssue : Issue :=
  { Summary := "Site sets X-XSS-Protection header to disable the XSS filter", Severity := "High" }

/-- Issue reported by XXSSProtectionPlugin for any other value. -/
def xxssInvalidIssue (v : String) : Issue :=
  { Summary := "Site sets an invalid X-XSS-Protection header: " ++ v, Severity := "High" }

/-- XXSSProtectionPlugin.do_run after the GET, as a function of the response. -/
def xxssprotectionPlugin (r : Response) : Except String (List Issue) :=
  match requestsRaiseForStatus r with
  | .error e => .error e
  | .ok _ =>
  match hget r.headers "X-XSS-Protection" with
  | none => pure [xxssMissingIssue]
  | some v =>
      if v == "1; mode=block" then
        pure [xxssValidIssue]
      else if v == "0" then
        pure [xxssDisabledIssue]
      else
        pure [xxssInvalidIssue v]

/-- The fixed tuple HEADERS of ServerDetailsPlugin.do_run, in source order. -/
def SD_HEADERS : List String :=
  ["Server", "X-Powered-By", "X-AspNet-Version", "X-AspNetMvc-Version", "X-Backend-Server"]

/-- Issue reported by ServerDetailsPlugin for one disclosure header. -/
def serverDetailIssue (h : String) : Issue :=
  { Summary := "Site sets the \x27" ++ h ++ "\x27 header", Severity := "Medium" }

/-- ServerDetailsPlugin.do_run after the GET: one report_issues call per
present header, in the order of the HEADERS tuple. -/
def serverdetailsPlugin (r : Response) : Except String (List Issue) :=
  match requestsRaiseForStatus r with
  | .error e => .error e
  | .ok _ =>
  .ok (SD_HEADERS.foldl
    (fun acc h => if (hget r.headers h).isSome then acc ++ [serverDetailIssue h] else acc) [])

/-! ## The curly-based plugins (Alive, CSP) -/

/-- A minion.curly response: status code and headers. -/
structure CurlyResponse where
  status : Nat
  headers : List (String × String)
deriving DecidableEq

/-- Modelled from the spec: minion.curly is not part of this repository;
per the spec (sections 4.2 and 8), its raise_for_status treats any status
outside the 2xx range as a failure; the raised message is the failure
detail string. -/
def curlyRaiseForStatus (r : CurlyResponse) : Except String Unit :=
  if 200 ≤ r.status ∧ r.status < 300 then .ok ()
  else .error ("non-success status: " ++ toString r.status)

/-- The issue reported by AlivePlugin on any failure. -/
def aliveIssue (target e : String) : Issue :=
  { Summary := "Site could not be reached", Severity := "Error",
    URLs := [{ URL := target, Extra := e }] }

/-- AlivePlugin.do_run: the try block covers the GET (whose outcome is the
fetch argument, with the exception text as the error) and raise_for_status;
any exception is converted into the single Error issue. -/
def alivePlugin (target : String) (fetch : Except String CurlyResponse) : List Issue :=
  match fetch.bind (fun r => curlyRaiseForStatus r) with
  | .ok _ => []
  | .error e => [aliveIssue target e]

/-- Issue reported by CSPPlugin when both headers are detected. -/
def cspBothIssue : Issue :=
  { Summary := "Both X-Content-Security-Policy and X-Content-Security-Policy-Report-Only headers set",
    Severity := "High" }

/-- Issue reported by CSPPlugin when only the report-only header is detected. -/
def cspReportOnlyIssue : Issue :=
  { Summary := "X-Content-Security-Policy-Report-Only header set", Severity := "High" }

/-- Issue reported by CSPPlugin when no CSP header is detected. -/
def cspNoHeaderIssue : Issue :=
  { Summary := "No X-Content-Security-Policy header set", Severity := "High" }

/-- Issue reported by CSPPlugin when the parsed mapping is empty. -/
def cspMalformedIssue : Issue :=
  { Summary := "Malformed X-Content-Security-Policy header set", Severity := "High" }

/-- Issue reported by CSPPlugin when the options directive allows eval-script. -/
def cspEvalIssue : Issue :=
  { Summary := "CSP Rules allow eval-script", Severity := "High" }

/-- Issue reported by CSPPlugin when the options directive allows inline-script. -/
def cspInlineIssue : Issue :=
  { Summary := "CSP Rules allow inline-script", Severity := "High" }

/-- Reading csp_config[k] on the parsed defaultdict: the token list of k,
empty when the key is absent. -/
def lookupD (m : List (String × List String)) (k : String) : List String :=
  ((m.find? (fun p => p.1 == k)).map Prod.snd).getD []

/-- CSPPlugin.do_run after the GET, as a function of the response; none
models an uncaught exception (from raise_for_status or from _parse_csp).
Note the misspelled header name x-xontent-security-policy in the first
test, copied verbatim from the source. -/
def cspPlugin (r : CurlyResponse) : Option (List Issue) :=
  match curlyRaiseForStatus r with
  | .error _ => none
  | .ok _ =>
    if (cget r.headers "x-xontent-security-policy").isSome
        && (cget r.headers "x-content-security-policy-report-only").isSome then
      some [cspBothIssue]
    else if (cget r.headers "x-content-security-policy-report-only").isSome then
      some [cspReportOnlyIssue]
    else
      match cget r.headers "x-content-security-policy" with
      | none => some [cspNoHeaderIssue]
      | some hv =>
          match parse_csp hv with
          | none => none
          | some cspConfig =>
              if cspConfig.isEmpty then
                some [cspMalformedIssue]
              else
                some ((if "eval-script" ∈ lookupD cspConfig "options" then [cspEvalIssue] else [])
                  ++ (if "inline-script" ∈ lookupD cspConfig "options" then [cspInlineIssue] else []))

/-! ## Auxiliary definitions and example inputs used by the theorems -/

/-- C2: the response carrying both the full CSP header and the report-only
CSP header, under the exact lower-case names the rest of do_run uses. -/
def c2BothHeadersResp : CurlyResponse :=
  { status := 200,
    headers := [("x-content-security-policy", "default-src *"),
                ("x-content-security-policy-report-only", "default-src *")] }

/-- A 200 response with no headers, over http. -/
def rBare : Response := { url := "http://a", status := 200, headers := [] }

/-- A 200 response with an invalid X-Frame-Options header (upper-case name,
exercising the case-insensitive lookup). -/
def rXfoInvalid : Response :=
  { url := "http://a", status := 200, headers := [("X-Frame-Options", "ALLOWALL")] }

/-- A 200 response with a lower-case valid X-Frame-Options value. -/
def rXfoValid : Response :=
  { url := "http://a", status := 200, headers := [("x-frame-options", "deny")] }

/-- A 200 https response with no headers. -/
def rHttpsBare : Response := { url := "https://a", status := 200, headers := [] }

/-- A 200 https response with an HSTS header. -/
def rHttpsHsts : Response :=
  { url := "https://a", status := 200, headers := [("Strict-Transport-Security", "max-age=1")] }

/-- A 200 response with the blocking X-XSS-Protection value. -/
def rXxssBlock : Response :=
  { url := "http://a", status := 200, headers := [("X-XSS-Protection", "1; mode=block")] }

/-- A 200 response with the X-XSS-Protection filter disabled. -/
def rXxssOff : Response :=
  { url := "http://a", status := 200, headers := [("x-xss-protection", "0")] }

/-- A 200 response with an unrecognized X-XSS-Protection value. -/
def rXxssJunk : Response :=
  { url := "http://a", status := 200, headers := [("X-XSS-Protection", "yes")] }

/-- A curly response with a 2xx status. -/
def cOk : CurlyResponse := { status := 200, headers := [] }

/-- A curly response with a server error status. -/
def cErr : CurlyResponse := { status := 500, headers := [] }

/-- A 200 response carrying exactly the Server and X-Powered-By disclosure
headers (one in lower case, exercising the case-insensitive lookup). -/
def rSrvPow : Response :=
  { url := "http://a", status := 200,
    headers := [("server", "nginx"), ("X-Powered-By", "PHP")] }

/-- The value tokens a[1:] of one split rule when its directive name a[0]
is the given name; none when the rule names another directive or has no
tokens at all. -/
def ruleTail (name : String) (rule : List Char) : Option (List String) :=
  match pySplitStr rule with
  | [] => none
  | n :: vs => if String.mk n == name then some (vs.map String.mk) else none

/-- The value-token lists of all clauses of s naming the given directive,
in clause order. -/
def tailsFor (s name : String) : List (List String) :=
  (reSplitSemi false s.data []).filterMap (ruleTail name)

/-- Lookup of a directive name in the mapping (first matching key). -/
def findVal (m : List (String × List String)) (name : String) : Option (List String) :=
  (m.find? (fun p => p.1 == name)).map Prod.snd

/-- Merging an existing entry with the token lists contributed by a run of
clauses: no entry appears unless some clause names the directive; tokens
are appended in order. -/
def mergeVals (old : Option (List String)) (ts : List (List String)) : Option (List String) :=
  match old with
  | none => if ts.isEmpty then none else some ts.flatten
  | some vs => some (vs ++ ts.flatten)

/-! ## Claim theorems -/

/-- C1: the claim says _parse_csp is total on all inputs, that a token-less
clause contributes nothing, and that the empty string parses to an empty
mapping. The code instead indexes a[0] on the empty token list, so it
raises IndexError (modelled as none) on the empty string and on any header
value with a token-less clause. -/
theorem parse_csp_raises_on_tokenless_clause :
    parse_csp "" = none ∧
    parse_csp "default-src \x27self\x27;; script-src \x27none\x27" = none := by
  decide

/-- C2: the claim says that when both CSP headers are present the plugin
emits exactly one High issue stating that both headers are set. The code
tests the misspelled name x-xontent-security-policy in the both-headers
branch, so that branch never fires for the real header pair; the plugin
falls through and reports the report-only issue instead. -/
theorem csp_both_headers_misreported :
    (cget c2BothHeadersResp.headers "x-content-security-policy").isSome = true ∧
    (cget c2BothHeadersResp.headers "x-content-security-policy-report-only").isSome = true ∧
    cspPlugin c2BothHeadersResp = some [cspReportOnlyIssue] ∧
    cspReportOnlyIssue ≠ cspBothIssue := by
  decide

/-- C3: parsing the exact header value from the spec yields exactly the
two-key mapping with the singleton token lists shown, and no other keys. -/
theorem parse_csp_spec_example :
    parse_csp "default-src \x27self\x27; script-src \x27none\x27" =
      some [("default-src", ["\x27self\x27"]), ("script-src", ["\x27none\x27"])] := by
  decide

theorem requestsRaiseForStatus_ok (r : Response) (h : is2xx r = true) :
    requestsRaiseForStatus r = .ok () := by
  simp only [is2xx, decide_eq_true_eq] at h
  unfold requestsRaiseForStatus
  rw [if_neg]
  omega

/-- C5: for every 2xx response the X-Frame-Options check emits exactly one
issue: a High issue when the header is absent; a High issue whose message
includes the raw value when the value is not case-insensitively DENY or
SAMEORIGIN; an Info issue otherwise. Case-insensitive equality is stated
as equality after character-wise upper-casing. -/
theorem xframeoptions_exactly_one (r : Response) (h2 : is2xx r = true) :
    (hget r.headers "x-frame-options" = none →
      xframeoptionsPlugin r = .ok [xfoMissingIssue] ∧ xfoMissingIssue.Severity = "High") ∧
    (∀ v, hget r.headers "x-frame-options" = some v →
      upperStr v ≠ upperStr "DENY" → upperStr v ≠ upperStr "SAMEORIGIN" →
      xframeoptionsPlugin r = .ok [xfoInvalidIssue v] ∧ (xfoInvalidIssue v).Severity = "High" ∧
        ∃ p q, (xfoInvalidIssue v).Summary = p ++ v ++ q) ∧
    (∀ v, hget r.headers "x-frame-options" = some v →
      (upperStr v = upperStr "DENY" ∨ upperStr v = upperStr "SAMEORIGIN") →
      xframeoptionsPlugin r = .ok [xfoValidIssue] ∧ xfoValidIssue.Severity = "Info") := by
  have hok := requestsRaiseForStatus_ok r h2
  have eD : upperStr "DENY" = "DENY" := by decide
  have eS : upperStr "SAMEORIGIN" = "SAMEORIGIN" := by decide
  refine ⟨fun hnone => ?_, fun v hv hd hs => ?_, fun v hv hds => ?_⟩
  · unfold xframeoptionsPlugin
    rw [hok, hnone]
    exact ⟨rfl, rfl⟩
  · rw [eD] at hd
    rw [eS] at hs
    have hcond : (upperStr v != "DENY" && upperStr v != "SAMEORIGIN") = true := by
      simp only [Bool.and_eq_true, bne_iff_ne, ne_eq]
      exact ⟨hd, hs⟩
    unfold xframeoptionsPlugin
    rw [hok, hv]
    simp only [hcond, if_true]
    exact ⟨rfl, rfl,
      "Site has X-Frame-Options header but it has an unknown or invalid value: ", "",
      by simp [xfoInvalidIssue]⟩
  · have hcond : (upperStr v != "DENY" && upperStr v != "SAMEORIGIN") = false := by
      rcases hds with h | h
      · rw [eD] at h
        simp [h]
      · rw [eS] at h
        simp [h]
    unfold xframeoptionsPlugin
    rw [hok, hv]
    simp only [hcond, Bool.false_eq_true, if_false]
    exact ⟨rfl, rfl⟩

/-- C5 witness: the three branches exercised on concrete responses. -/
theorem xframeoptions_exactly_one_witness :
    (xframeoptionsPlugin rBare = .ok [xfoMissingIssue] ∧ xfoMissingIssue.Severity = "High") ∧
    (xframeoptionsPlugin rXfoInvalid = .ok [xfoInvalidIssue "ALLOWALL"] ∧
        (xfoInvalidIssue "ALLOWALL").Severity = "High" ∧
        ∃ p q, (xfoInvalidIssue "ALLOWALL").Summary = p ++ "ALLOWALL" ++ q) ∧
    (xframeoptionsPlugin rXfoValid = .ok [xfoValidIssue] ∧ xfoValidIssue.Severity = "Info") :=
  ⟨(xframeoptions_exactly_one rBare (by decide)).1 (by decide),
   (xframeoptions_exactly_one rXfoInvalid (by decide)).2.1 "ALLOWALL" (by decide) (by decide)
     (by decide),
   (xframeoptions_exactly_one rXfoValid (by decide)).2.2 "deny" (by decide) (Or.inl (by decide))⟩

theorem startswith_http_not_https (s : String) (h : startswith s "http://" = true) :
    startswith s "https://" = false := by
  unfold startswith at h ⊢
  rw [List.isPrefixOf_iff_prefix] at h
  obtain ⟨t, ht⟩ := h
  have e7 : "http://".data = ['h', 't', 't', 'p', ':', '/', '/'] := rfl
  have e8 : "https://".data = ['h', 't', 't', 'p', 's', ':', '/', '/'] := rfl
  rw [e7] at ht
  rw [e8, ← ht]
  simp only [List.cons_append, List.nil_append]
  cases hb : List.isPrefixOf ['h', 't', 't', 'p', 's', ':', '/', '/']
      ('h' :: 't' :: 't' :: 'p' :: ':' :: '/' :: '/' :: t)
  · rfl
  · exfalso
    have hp := List.isPrefixOf_iff_prefix.mp hb
    simp only [List.cons_prefix_cons] at hp
    exact absurd hp.2.2.2.2.1 (by decide)

/-- C6: for every 2xx response the HSTS check evaluates only on https
response URLs: on https it emits exactly one High issue when the header is
absent and exactly one Info issue when it is present; on http it emits no
issue at all. -/
theorem hsts_conditional_on_scheme (r : Response) (h2 : is2xx r = true) :
    (startswith r.url "https://" = true →
      hget r.headers "strict-transport-security" = none →
      hstsPlugin r = .ok [hstsMissingIssue] ∧ hstsMissingIssue.Severity = "High") ∧
    (startswith r.url "https://" = true →
      ∀ v, hget r.headers "strict-transport-security" = some v →
      hstsPlugin r = .ok [hstsPresentIssue] ∧ hstsPresentIssue.Severity = "Info") ∧
    (startswith r.url "http://" = true → hstsPlugin r = .ok []) := by
  have hok := requestsRaiseForStatus_ok r h2
  refine ⟨fun hu hnone => ?_, fun hu v hv => ?_, fun hu => ?_⟩
  · unfold hstsPlugin
    rw [hok, hu, hnone]
    exact ⟨rfl, rfl⟩
  · unfold hstsPlugin
    rw [hok, hu, hv]
    exact ⟨rfl, rfl⟩
  · have hs := startswith_http_not_https r.url hu
    unfold hstsPlugin
    rw [hok, hs]
    rfl

/-- C6 witness: the three branches exercised on concrete responses. -/
theorem hsts_conditional_on_scheme_witness :
    (hstsPlugin rHttpsBare = .ok [hstsMissingIssue] ∧ hstsMissingIssue.Severity = "High") ∧
    (hstsPlugin rHttpsHsts = .ok [hstsPresentIssue] ∧ hstsPresentIssue.Severity = "Info") ∧
    hstsPlugin rBare = .ok [] :=
  ⟨(hsts_conditional_on_scheme rHttpsBare (by decide)).1 (by decide) (by decide),
   (hsts_conditional_on_scheme rHttpsHsts (by decide)).2.1 (by decide) "max-age=1" (by decide),
   (hsts_conditional_on_scheme rBare (by decide)).2.2 (by decide)⟩

/-- C7: for every 2xx response the X-XSS-Protection check emits exactly one
issue by the four-way case split on the header value; the value 0 gives a
High issue whose message differs from the missing-header message, and any
other unrecognized value gives a High issue whose message includes the raw
value. -/
theorem xxssprotection_exactly_one (r : Response) (h2 : is2xx r = true) :
    (hget r.headers "X-XSS-Protection" = none →
      xxssprotectionPlugin r = .ok [xxssMissingIssue] ∧ xxssMissingIssue.Severity = "High") ∧
    (hget r.headers "X-XSS-Protection" = some "1; mode=block" →
      xxssprotectionPlugin r = .ok [xxssValidIssue] ∧ xxssValidIssue.Severity = "Info") ∧
    (hget r.headers "X-XSS-Protection" = some "0" →
      xxssprotectionPlugin r = .ok [xxssDisabledIssue] ∧ xxssDisabledIssue.Severity = "High" ∧
      xxssDisabledIssue.Summary ≠ xxssMissingIssue.Summary) ∧
    (∀ v, hget r.headers "X-XSS-Protection" = some v →
      v ≠ "1; mode=block" → v ≠ "0" →
      xxssprotectionPlugin r = .ok [xxssInvalidIssue v] ∧ (xxssInvalidIssue v).Severity = "High" ∧
      ∃ p q, (xxssInvalidIssue v).Summary = p ++ v ++ q) := by
  have hok := requestsRaiseForStatus_ok r h2
  refine ⟨fun hnone => ?_, fun hv => ?_, fun hv => ?_, fun v hv h1 h0 => ?_⟩
  · unfold xxssprotectionPlugin
    rw [hok, hnone]
    exact ⟨rfl, rfl⟩
  · unfold xxssprotectionPlugin
    rw [hok, hv]
    exact ⟨rfl, rfl⟩
  · unfold xxssprotectionPlugin
    rw [hok, hv]
    exact ⟨rfl, rfl, by decide⟩
  · have c1 : (v == "1; mode=block") = false := by
      rw [beq_eq_false_iff_ne]
      exact h1
    have c0 : (v == "0") = false := by
      rw [beq_eq_false_iff_ne]
      exact h0
    unfold xxssprotectionPlugin
    rw [hok, hv]
    simp only [c1, c0, Bool.false_eq_true, if_false]
    exact ⟨rfl, rfl, "Site sets an invalid X-XSS-Protection header: ", "",
      by simp [xxssInvalidIssue]⟩

/-- C7 witness: the four branches exercised on concrete responses. -/
theorem xxssprotection_exactly_one_witness :
    (xxssprotectionPlugin rBare = .ok [xxssMissingIssue] ∧ xxssMissingIssue.Severity = "High") ∧
    (xxssprotectionPlugin rXxssBlock = .ok [xxssValidIssue] ∧ xxssValidIssue.Severity = "Info") ∧
    (xxssprotectionPlugin rXxssOff = .ok [xxssDisabledIssue] ∧
        xxssDisabledIssue.Severity = "High" ∧
        xxssDisabledIssue.Summary ≠ xxssMissingIssue.Summary) ∧
    (xxssprotectionPlugin rXxssJunk = .ok [xxssInvalidIssue "yes"] ∧
        (xxssInvalidIssue "yes").Severity = "High" ∧
        ∃ p q, (xxssInvalidIssue "yes").Summary = p ++ "yes" ++ q) :=
  ⟨(xxssprotection_exactly_one rBare (by decide)).1 (by decide),
   (xxssprotection_exactly_one rXxssBlock (by decide)).2.1 (by decide),
   (xxssprotection_exactly_one rXxssOff (by decide)).2.2.1 (by decide),
   (xxssprotection_exactly_one rXxssJunk (by decide)).2.2.2 "yes" (by decide) (by decide)
     (by decide)⟩

/-- C8: the Alive check reports exactly one Error issue carrying the target
and the failure detail when the fetch fails in transport or the status is
outside the 2xx range, and reports nothing on a 2xx response. The fetch
outcome (the GET inside the try block) is passed as an Except value whose
error is the exception text. -/
theorem alive_single_error_issue (target : String) (fetch : Except String CurlyResponse) :
    (∀ e, fetch = .error e →
      alivePlugin target fetch = [aliveIssue target e] ∧
      (aliveIssue target e).Severity = "Error" ∧
      (aliveIssue target e).URLs = [{ URL := target, Extra := e }]) ∧
    (∀ r, fetch = .ok r → ¬ (200 ≤ r.status ∧ r.status < 300) →
      ∃ e, alivePlugin target fetch = [aliveIssue target e] ∧
        (aliveIssue target e).Severity = "Error" ∧
        (aliveIssue target e).URLs = [{ URL := target, Extra := e }]) ∧
    (∀ r, fetch = .ok r → 200 ≤ r.status → r.status < 300 →
      alivePlugin target fetch = []) := by
  refine ⟨fun e he => ?_, fun r hr hbad => ?_, fun r hr hlo hhi => ?_⟩
  · subst he
    exact ⟨rfl, rfl, rfl⟩
  · subst hr
    refine ⟨"non-success status: " ++ toString r.status, ?_, rfl, rfl⟩
    have hred : alivePlugin target (Except.ok r) =
        (match curlyRaiseForStatus r with
         | .ok _ => ([] : List Issue)
         | .error e => [aliveIssue target e]) := rfl
    have hcs : curlyRaiseForStatus r =
        .error ("non-success status: " ++ toString r.status) := by
      unfold curlyRaiseForStatus
      rw [if_neg hbad]
    rw [hred, hcs]
  · subst hr
    have hred : alivePlugin target (Except.ok r) =
        (match curlyRaiseForStatus r with
         | .ok _ => ([] : List Issue)
         | .error e => [aliveIssue target e]) := rfl
    have hcs : curlyRaiseForStatus r = .ok () := by
      unfold curlyRaiseForStatus
      rw [if_pos ⟨hlo, hhi⟩]
    rw [hred, hcs]

/-- C8 witness: transport failure, non-success status and success exercised
on concrete fetch outcomes. -/
theorem alive_single_error_issue_witness :
    (alivePlugin "http://a" (.error "connection error") =
        [aliveIssue "http://a" "connection error"] ∧
      (aliveIssue "http://a" "connection error").Severity = "Error" ∧
      (aliveIssue "http://a" "connection error").URLs =
        [{ URL := "http://a", Extra := "connection error" }]) ∧
    (∃ e, alivePlugin "http://a" (.ok cErr) = [aliveIssue "http://a" e] ∧
      (aliveIssue "http://a" e).Severity = "Error" ∧
      (aliveIssue "http://a" e).URLs = [{ URL := "http://a", Extra := e }]) ∧
    alivePlugin "http://a" (.ok cOk) = [] :=
  ⟨(alive_single_error_issue "http://a" (.error "connection error")).1
      "connection error" rfl,
   (alive_single_error_issue "http://a" (.ok cErr)).2.1 cErr rfl (by decide),
   (alive_single_error_issue "http://a" (.ok cOk)).2.2 cOk rfl (by decide) (by decide)⟩

theorem foldl_report_append (p : String → Bool) (f : String → Issue) :
    ∀ (hs : List String) (acc : List Issue),
      hs.foldl (fun a h => if p h then a ++ [f h] else a) acc =
        acc ++ (hs.filter p).map f := by
  intro hs
  induction hs with
  | nil =>
      intro acc
      simp
  | cons h t ih =>
      intro acc
      by_cases hp : p h = true
      · simp only [List.foldl_cons, List.filter_cons, hp, if_true, List.map_cons]
        rw [ih]
        simp [List.append_assoc]
      · simp only [List.foldl_cons, List.filter_cons, hp, Bool.false_eq_true, if_false]
        exact ih acc

/-- C9: for every 2xx response the Server-Details check emits one Medium
issue per disclosure header present, independently of the others, in the
order of the fixed header tuple; in particular a response with exactly
Server and X-Powered-By yields those two issues in that order. -/
theorem serverdetails_per_header (r : Response) (h2 : is2xx r = true) :
    serverdetailsPlugin r =
      .ok ((SD_HEADERS.filter (fun h => (hget r.headers h).isSome)).map serverDetailIssue) ∧
    (∀ h, (serverDetailIssue h).Severity = "Medium") ∧
    ((hget r.headers "Server").isSome = true →
     (hget r.headers "X-Powered-By").isSome = true →
     (hget r.headers "X-AspNet-Version").isSome = false →
     (hget r.headers "X-AspNetMvc-Version").isSome = false →
     (hget r.headers "X-Backend-Server").isSome = false →
     serverdetailsPlugin r =
       .ok [serverDetailIssue "Server", serverDetailIssue "X-Powered-By"]) := by
  have hok := requestsRaiseForStatus_ok r h2
  have hmain : serverdetailsPlugin r =
      .ok ((SD_HEADERS.filter (fun h => (hget r.headers h).isSome)).map serverDetailIssue) := by
    unfold serverdetailsPlugin
    rw [hok, foldl_report_append]
    rw [List.nil_append]
  refine ⟨hmain, fun h => rfl, fun hS hP hA hM hB => ?_⟩
  rw [hmain]
  simp [SD_HEADERS, List.filter_cons, hS, hP, hA, hM, hB]

/-- C9 witness: the per-header equation and the two-header instance on a
concrete response. -/
theorem serverdetails_per_header_witness :
    serverdetailsPlugin rSrvPow =
      .ok ((SD_HEADERS.filter (fun h => (hget rSrvPow.headers h).isSome)).map
        serverDetailIssue) ∧
    (serverDetailIssue "Server").Severity = "Medium" ∧
    serverdetailsPlugin rSrvPow =
      .ok [serverDetailIssue "Server", serverDetailIssue "X-Powered-By"] :=
  ⟨(serverdetails_per_header rSrvPow (by decide)).1,
   (serverdetails_per_header rSrvPow (by decide)).2.1 "Server",
   (serverdetails_per_header rSrvPow (by decide)).2.2 (by decide) (by decide) (by decide)
     (by decide) (by decide)⟩

/-- C10: for every 2xx response, each of the X-Frame-Options,
X-Content-Type-Options and X-XSS-Protection checks reports exactly one
issue: every branch of each case analysis emits a singleton issue list. -/
theorem header_checks_exactly_one (r : Response) (h2 : is2xx r = true) :
    (∃ i, xframeoptionsPlugin r = .ok [i]) ∧
    (∃ i, xcontenttypeoptionsPlugin r = .ok [i]) ∧
    (∃ i, xxssprotectionPlugin r = .ok [i]) := by
  have hok := requestsRaiseForStatus_ok r h2
  refine ⟨?_, ?_, ?_⟩
  · unfold xframeoptionsPlugin
    rw [hok]
    cases hget r.headers "x-frame-options" with
    | none => exact ⟨_, rfl⟩
    | some v =>
        dsimp only
        cases hc : (upperStr v != "DENY" && upperStr v != "SAMEORIGIN")
        · exact ⟨_, rfl⟩
        · exact ⟨_, rfl⟩
  · unfold xcontenttypeoptionsPlugin
    rw [hok]
    cases hget r.headers "X-Content-Type-Options" with
    | none => exact ⟨_, rfl⟩
    | some v =>
        dsimp only
        cases hc : (v == "nosniff")
        · exact ⟨_, rfl⟩
        · exact ⟨_, rfl⟩
  · unfold xxssprotectionPlugin
    rw [hok]
    cases hget r.headers "X-XSS-Protection" with
    | none => exact ⟨_, rfl⟩
    | some v =>
        dsimp only
        cases hc1 : (v == "1; mode=block")
        · cases hc0 : (v == "0")
          · exact ⟨_, rfl⟩
          · exact ⟨_, rfl⟩
        · exact ⟨_, rfl⟩

/-- C10 witness: the three checks each emit exactly one issue on a concrete
200 response with none of the headers set. -/
theorem header_checks_exactly_one_witness :
    (∃ i, xframeoptionsPlugin rBare = .ok [i]) ∧
    (∃ i, xcontenttypeoptionsPlugin rBare = .ok [i]) ∧
    (∃ i, xxssprotectionPlugin rBare = .ok [i]) :=
  header_checks_exactly_one rBare (by decide)

theorem findVal_cons_self (k0 : String) (vs0 : List String) (L : List (String × List String)) :
    findVal ((k0, vs0) :: L) k0 = some vs0 := by
  unfold findVal
  rw [List.find?_cons_of_pos _ (by simp)]
  rfl

theorem findVal_cons_ne (k0 : String) (vs0 : List String) (L : List (String × List String))
    (name : String) (h : k0 ≠ name) : findVal ((k0, vs0) :: L) name = findVal L name := by
  unfold findVal
  rw [List.find?_cons_of_neg _ (by simpa using h)]

theorem appendEntry_keys (acc : List (String × List String)) (k : String) (vs : List String) :
    (appendEntry acc k vs).map Prod.fst =
      if k ∈ acc.map Prod.fst then acc.map Prod.fst else acc.map Prod.fst ++ [k] := by
  induction acc with
  | nil => simp [appendEntry]
  | cons p rest ih =>
      obtain ⟨k0, vs0⟩ := p
      by_cases h : k0 = k
      · subst h
        simp [appendEntry]
      · by_cases hm : k ∈ rest.map Prod.fst
        · simp [appendEntry, beq_iff_eq, h, ih, hm, List.mem_cons, Ne.symm h]
        · simp [appendEntry, beq_iff_eq, h, ih, hm, List.mem_cons, Ne.symm h]

theorem appendEntry_nodup (acc : List (String × List String)) (k : String) (vs : List String)
    (h : (acc.map Prod.fst).Nodup) : ((appendEntry acc k vs).map Prod.fst).Nodup := by
  rw [appendEntry_keys]
  by_cases hm : k ∈ acc.map Prod.fst
  · simp [hm, h]
  · simp only [hm, if_false]
    refine List.Nodup.append h (List.nodup_singleton k) ?_
    simp [List.disjoint_singleton, hm]

theorem appendEntry_findVal (acc : List (String × List String)) (k : String) (vs : List String)
    (name : String) :
    findVal (appendEntry acc k vs) name =
      if name = k then some (((findVal acc k).getD []) ++ vs)
      else findVal acc name := by
  induction acc with
  | nil =>
      by_cases h : name = k
      · subst h
        simp [appendEntry, findVal]
      · simp [appendEntry, findVal, h, beq_iff_eq, Ne.symm h]
  | cons p rest ih =>
      obtain ⟨k0, vs0⟩ := p
      by_cases h0 : k0 = k
      · subst h0
        have hae : appendEntry ((k0, vs0) :: rest) k0 vs = (k0, vs0 ++ vs) :: rest := by
          simp [appendEntry]
        rw [hae]
        by_cases hn : name = k0
        · subst hn
          rw [findVal_cons_self, if_pos rfl, findVal_cons_self]
          rfl
        · rw [findVal_cons_ne _ _ _ _ (fun he => hn he.symm), if_neg hn,
            findVal_cons_ne _ _ _ _ (fun he => hn he.symm)]
      · have hae : appendEntry ((k0, vs0) :: rest) k vs = (k0, vs0) :: appendEntry rest k vs := by
          simp [appendEntry, beq_iff_eq, h0]
        rw [hae]
        by_cases hn : name = k0
        · subst hn
          rw [findVal_cons_self, if_neg h0, findVal_cons_self]
        · rw [findVal_cons_ne _ _ _ _ (fun he => hn he.symm), ih,
            findVal_cons_ne _ _ _ _ (fun he => hn he.symm)]
          by_cases hk : name = k
          · rw [if_pos hk, if_pos hk, findVal_cons_ne _ _ _ _ h0]
          · rw [if_neg hk, if_neg hk]

theorem parseCspGo_characterization :
    ∀ (rules : List (List Char)) (acc m : List (String × List String)),
      parseCspGo rules acc = some m → ∀ name,
      ((acc.map Prod.fst).Nodup → (m.map Prod.fst).Nodup) ∧
      findVal m name = mergeVals (findVal acc name) (rules.filterMap (ruleTail name)) := by
  intro rules
  induction rules with
  | nil =>
      intro acc m h name
      simp only [parseCspGo, Option.some.injEq] at h
      subst h
      refine ⟨id, ?_⟩
      cases findVal acc name <;> simp [mergeVals]
  | cons rule rest ih =>
      intro acc m h name
      cases hsp : pySplitStr rule with
      | nil => simp [parseCspGo, hsp] at h
      | cons n vsr =>
          simp only [parseCspGo, hsp] at h
          obtain ⟨hnd, hfv⟩ := ih (appendEntry acc (String.mk n) (vsr.map String.mk)) m h name
          refine ⟨fun hacc => hnd (appendEntry_nodup _ _ _ hacc), ?_⟩
          rw [hfv, appendEntry_findVal]
          have hrt : ruleTail name rule =
              if String.mk n == name then some (vsr.map String.mk) else none := by
            simp [ruleTail, hsp]
          by_cases hn : name = String.mk n
          · rw [if_pos hn]
            have hrts : ruleTail name rule = some (vsr.map String.mk) := by
              rw [hrt, if_pos]
              rw [beq_iff_eq]
              exact hn.symm
            rw [List.filterMap_cons_some hrts, ← hn]
            cases findVal acc name <;> simp [mergeVals, List.append_assoc]
          · rw [if_neg hn]
            have hrtn : ruleTail name rule = none := by
              rw [hrt, if_neg]
              rw [beq_iff_eq]
              exact fun he => hn he.symm
            rw [List.filterMap_cons_none hrtn]

/-- C4 counterexample: in the header value below the directive name a
occurs in two clauses, yet the parser produces no mapping at all: the
token-less middle clause makes it raise IndexError (modelled as none), so
the claim, which asserts a mapping is produced for every input with a
repeated directive name, fails here. -/
theorem parse_csp_dup_name_crash :
    (tailsFor "a x;;a y" "a").length = 2 ∧ parse_csp "a x;;a y" = none := by
  decide

/-- C4 (amended): whenever _parse_csp succeeds (no clause is token-less),
the produced mapping has unique keys, and the entry of each directive name
is the concatenation, in clause order, of the value tokens of every clause
naming it: later occurrences are appended after earlier ones rather than
overwriting, a clause with only a name contributes an empty token list,
and a name appearing in no clause has no entry. -/
theorem parse_csp_accumulates (s : String) (m : List (String × List String)) (name : String)
    (h : parse_csp s = some m) :
    (m.map Prod.fst).Nodup ∧
    findVal m name =
      (if (tailsFor s name).isEmpty then none else some (tailsFor s name).flatten) := by
  obtain ⟨hnd, hfv⟩ := parseCspGo_characterization (reSplitSemi false s.data []) [] m h name
  refine ⟨hnd (by simp), ?_⟩
  rw [hfv]
  simp [findVal, mergeVals, tailsFor]

/-- C4 witness: the characterization applied to a header value in which the
directive a occurs in two clauses with a clause of another name between
them. -/
theorem parse_csp_accumulates_witness :
    (([("a", ["b", "e"]), ("c", ["d"])] : List (String × List String)).map Prod.fst).Nodup ∧
    findVal [("a", ["b", "e"]), ("c", ["d"])] "a" =
      (if (tailsFor "a b; c d; a e" "a").isEmpty then none
       else some (tailsFor "a b; c d; a e" "a").flatten) :=
  parse_csp_accumulates "a b; c d; a e" [("a", ["b", "e"]), ("c", ["d"])] "a" (by decide)

end Minion
